import Mathlib

/-!
Verification of the endpoint-dispatch layer (`src/endpoint.rs`).

Shallow embedding conventions:
* Asynchronous computations (`Future`s) are collapsed to their resolved
  values: `ready(x)` is `x`, and a service's `call` returns the value its
  future eventually resolves to.  `Poll` is kept explicit for the
  readiness check, since `poll_ready` genuinely returns `Poll`.
* `hyper::Error` and the transport `Request` are opaque value types to
  this layer; they are embedded as simple concrete structures so that
  theorems can be evaluated on concrete inputs.
* `http::Response::new(body)` builds a response with the default status
  200; `Response::builder().status(s).body(b).unwrap()` builds a response
  with status `s`.  For the constant, valid inputs used by this crate the
  builder's `Result` is always `Ok`, so `unwrap` is elided.
* The `Extract` / `Handler` chain lives in `crate::handler`, which is not
  part of the sources under verification; it is modelled from the spec
  (section 4.3) where marked.
-/

/-- HTTP method vocabulary (`http::Method`): the standard verbs plus an
escape hatch for extension methods. -/
inductive Method where
  | GET
  | POST
  | PUT
  | PATCH
  | DELETE
  | HEAD
  | OPTIONS
  | CONNECT
  | TRACE
  | other (s : String)
deriving DecidableEq, Repr

/-- Wire-level body (`hyper::Body`), embedded as a byte list. -/
structure Body where
  bytes : List Nat
deriving DecidableEq, Repr

/-- `Body::default()`: the empty body. -/
def Body.default : Body := ⟨[]⟩

/-- Wire-level response (`hyper::Response<Body>`): a status code and a body. -/
structure Response where
  status : Nat
  body : Body
deriving DecidableEq, Repr

/-- `Response::new(body)`: a response with the default status 200 OK. -/
def Response.new (b : Body) : Response := ⟨200, b⟩

/-- `http::response::Builder` state: the status chosen so far
(default 200). -/
structure ResponseBuilder where
  statusField : Nat
deriving DecidableEq, Repr

/-- `Response::builder()`: a builder with the default status 200. -/
def Response.builder : ResponseBuilder := ⟨200⟩

/-- `Builder::status(s)`: replace the builder's status. -/
def ResponseBuilder.status (_ : ResponseBuilder) (s : Nat) : ResponseBuilder :=
  ⟨s⟩

/-- `Builder::body(bd).unwrap()`: finish the builder.  On the constant,
valid inputs used in `endpoint.rs` the underlying `Result` is `Ok`, so the
`unwrap` is the identity and is folded in here. -/
def ResponseBuilder.body (b : ResponseBuilder) (bd : Body) : Response :=
  ⟨b.statusField, bd⟩

/-- Transport request (`crate::request::Request`), opaque to this layer;
embedded as a tagged value so concrete witnesses exist. -/
structure Request where
  data : Nat
deriving DecidableEq, Repr

/-- Transport-level error (`hyper::Error`), opaque to this layer. -/
structure HyperError where
  code : Nat
deriving DecidableEq, Repr

/-- `std::task::Poll`. -/
inductive Poll (α : Type) where
  | pending
  | ready (a : α)
deriving DecidableEq, Repr

/-- The contract of the inner unit wrapped by `EndpointService`:
a `Service<Request, Response = Response<Body>, Error = (hyper::Error, Request)>`.
Futures are collapsed to their resolved values, so `call` returns the
`Result` its future resolves to. -/
structure InnerService where
  poll_ready : Poll (Except (HyperError × Request) Unit)
  call : Request → Except (HyperError × Request) Response

/-- The fixed outer transport contract (`BoxedEndpointService`):
a `Service<Request, Response = Response<Body>, Error = hyper::Error>`. -/
structure OuterService where
  poll_ready : Poll (Except HyperError Unit)
  call : Request → Except HyperError Response

/-- `EndpointService::poll_ready`:
`self.service.poll_ready(cx).map_err(|(e, _)| e)` — forward the inner
readiness result, discarding the request paired with an inner error. -/
def EndpointService.poll_ready (s : InnerService) :
    Poll (Except HyperError Unit) :=
  match s.poll_ready with
  | .pending => .pending
  | .ready (.ok u) => .ready (.ok u)
  | .ready (.error (e, _)) => .ready (.error e)

/-- `EndpointService::call`: forward the inner call's result, mapping
`Ok(res)` to `Ok(res)` and `Err((_err, _req))` to
`Ok(Response::new(Body::default()))` (the `[TODO] error response`
placeholder). -/
def EndpointService.call (s : InnerService) (req : Request) :
    Except HyperError Response :=
  match s.call req with
  | .ok res => .ok res
  | .error (_, _) => .ok (Response.new Body.default)

/-- `EndpointService::new(service)` viewed through the outer contract:
the two operations above, bundled. -/
def EndpointService.toOuter (s : InnerService) : OuterService :=
  { poll_ready := EndpointService.poll_ready s
    call := EndpointService.call s }

/-- Modelled from the spec: the Handler Adapter (`crate::handler::Handler`,
not under the verified sources) wraps one user function from its extracted
argument tuple to its (future-collapsed) return value. -/
structure Handler (T U : Type) where
  f : T → U

/-- `Handler::new(f)`. -/
def Handler.new {T U : Type} (f : T → U) : Handler T U := ⟨f⟩

/-- Modelled from the spec: the Extraction Pipeline
(`crate::handler::Extract`, not under the verified sources), as a call on
the inner contract: given a raw request, run the Extraction Capability
(`FromRequest`) for the handler's argument tuple; on failure short-circuit
with the extraction error carrying the original request; on success invoke
the Handler Adapter and convert its return value through the Response
Capability (`ToResponse`). -/
def Extract.call {T U : Type}
    (fromRequest : Request → Except (HyperError × Request) T)
    (toResponse : U → Response) (h : Handler T U) (req : Request) :
    Except (HyperError × Request) Response :=
  match fromRequest req with
  | .error e => .error e
  | .ok args => .ok (toResponse (h.f args))

/-- Modelled from the spec: `Extract::new(handler)` bundled as an inner
service.  The pipeline is stateless (spec section 3), so its readiness
check trivially succeeds. -/
def Extract.toService {T U : Type}
    (fromRequest : Request → Except (HyperError × Request) T)
    (toResponse : U → Response) (h : Handler T U) : InnerService :=
  { poll_ready := .ready (.ok ())
    call := Extract.call fromRequest toResponse h }

/-- Modelled from the spec: the Extraction Capability instance for a
zero-argument handler (`FromRequest` for the empty tuple, from
`crate::request`, not under the verified sources): there is nothing to
extract, so extraction always succeeds. -/
def fromRequestUnit (_ : Request) : Except (HyperError × Request) Unit :=
  .ok ()

/-- Modelled from the spec: the Response Capability instance for a handler
that already returns a wire response (`ToResponse` for `Response<Body>`,
from `crate::response`, not under the verified sources): the conversion is
the identity. -/
def toResponseId (r : Response) : Response := r

/-- `Endpoint`: an optional method filter plus the type-erased handler
service. -/
structure Endpoint where
  method : Option Method
  handler : OuterService

/-- `Endpoint::new()`: no method filter; the default handler is the full
`EndpointService::new(Extract::new(Handler::new(|| ready(Response::builder()
.status(StatusCode::NOT_FOUND).body(Body::default()).unwrap()))))` chain
around the zero-argument 404 closure. -/
def Endpoint.new : Endpoint :=
  { method := none
    handler := EndpointService.toOuter (Extract.toService fromRequestUnit
      toResponseId (Handler.new (fun _ : Unit =>
        (Response.builder.status 404).body Body.default))) }

/-- `Endpoint::set_method(m)`: replace the `method` field with `Some(m)`. -/
def Endpoint.set_method (e : Endpoint) (m : Method) : Endpoint :=
  { e with method := some m }

/-- `Endpoint::method(m)` (named `mkMethod` because the Lean field accessor
already takes the name `Endpoint.method`): `Endpoint::new().set_method(m)`. -/
def Endpoint.mkMethod (m : Method) : Endpoint :=
  Endpoint.new.set_method m

/-- `Endpoint::get()`. -/
def Endpoint.get : Endpoint := Endpoint.new.set_method .GET

/-- `Endpoint::post()`. -/
def Endpoint.post : Endpoint := Endpoint.new.set_method .POST

/-- `Endpoint::put()`. -/
def Endpoint.put : Endpoint := Endpoint.new.set_method .PUT

/-- `Endpoint::patch()`. -/
def Endpoint.patch : Endpoint := Endpoint.new.set_method .PATCH

/-- `Endpoint::delete()`. -/
def Endpoint.delete : Endpoint := Endpoint.new.set_method .DELETE

/-- `Endpoint::head()`. -/
def Endpoint.head : Endpoint := Endpoint.new.set_method .HEAD

/-- `Endpoint::to(handler)`: replace the `handler` field with
`Box::new(EndpointService::new(Extract::new(Handler::new(handler))))`,
keeping everything else.  The extraction and response capabilities for the
handler's argument/return types are passed explicitly, standing for the
`FromRequest` and `ToResponse` instances resolved at the Rust call site. -/
def Endpoint.to {T U : Type} (e : Endpoint)
    (fromRequest : Request → Except (HyperError × Request) T)
    (toResponse : U → Response) (handler : T → U) : Endpoint :=
  { e with
    handler := EndpointService.toOuter
      (Extract.toService fromRequest toResponse (Handler.new handler)) }

/-- A concrete inner service whose readiness check and every call fail
with a transport error paired with a request; used by witnesses. -/
def failingService : InnerService :=
  { poll_ready := .ready (.error (⟨7⟩, ⟨5⟩))
    call := fun r => .error (⟨7⟩, r) }

/-- C1: whenever the inner unit's call fails with an (error, request)
pair, `EndpointService::call` resolves successfully to the fallback
response `Response::new(Body::default())`, whose body is empty; the inner
error is never propagated. -/
theorem endpointService_call_never_propagates_inner_error
    (s : InnerService) (req : Request) (e : HyperError) (r : Request)
    (h : s.call req = .error (e, r)) :
    EndpointService.call s req = .ok (Response.new Body.default) ∧
      (Response.new Body.default).body = Body.default := by
  refine ⟨?_, rfl⟩
  simp [EndpointService.call, h]

/-- Witness for C1: a concrete always-failing inner service at a concrete
request. -/
theorem endpointService_call_never_propagates_inner_error_witness :
    EndpointService.call failingService ⟨3⟩ = .ok (Response.new Body.default) ∧
      (Response.new Body.default).body = Body.default :=
  endpointService_call_never_propagates_inner_error failingService ⟨3⟩ ⟨7⟩ ⟨3⟩ rfl

/-- C2: invoking the handler of `Endpoint::new()` with any request yields
status 404 Not Found and an empty body, regardless of the request; the
construction itself is a total value construction and cannot fail. -/
theorem endpoint_new_always_404 (req : Request) :
    Endpoint.new.handler.call req = .ok ⟨404, Body.default⟩ := rfl

/-- C3: `EndpointService::poll_ready` surfaces an inner readiness error
unchanged with the paired request discarded, and forwards inner readiness
success as success. -/
theorem endpointService_poll_ready_forwards (s : InnerService) :
    (∀ e r, s.poll_ready = .ready (.error (e, r)) →
      EndpointService.poll_ready s = .ready (.error e)) ∧
    (s.poll_ready = .ready (.ok ()) →
      EndpointService.poll_ready s = .ready (.ok ())) := by
  constructor
  · intro e r h
    simp [EndpointService.poll_ready, h]
  · intro h
    simp [EndpointService.poll_ready, h]

/-- Witness for C3: the concrete failing service's readiness error code 7
is surfaced unchanged, its paired request dropped. -/
theorem endpointService_poll_ready_forwards_witness :
    EndpointService.poll_ready failingService = .ready (.error ⟨7⟩) :=
  (endpointService_poll_ready_forwards failingService).1 ⟨7⟩ ⟨5⟩ rfl

/-- C4: for a handler registered via `to(...)`, whenever the inner unit
(extraction then handler execution) succeeds with a response, the outer
invocation resolves to exactly that response, unchanged. -/
theorem endpoint_to_call_forwards_success {T U : Type} (e0 : Endpoint)
    (fr : Request → Except (HyperError × Request) T) (tr : U → Response)
    (f : T → U) (req : Request) (res : Response)
    (h : Extract.call fr tr (Handler.new f) req = .ok res) :
    (e0.to fr tr f).handler.call req = .ok res := by
  simp [Endpoint.to, EndpointService.toOuter, EndpointService.call,
    Extract.toService, h]

/-- Witness for C4: a zero-argument handler returning a fixed body; the
outer call yields exactly that response. -/
theorem endpoint_to_call_forwards_success_witness :
    (Endpoint.get.to fromRequestUnit toResponseId
      (fun _ : Unit => Response.new ⟨[1, 2]⟩)).handler.call ⟨0⟩ =
      .ok (Response.new ⟨[1, 2]⟩) :=
  endpoint_to_call_forwards_success Endpoint.get fromRequestUnit toResponseId
    (fun _ : Unit => Response.new ⟨[1, 2]⟩) ⟨0⟩ (Response.new ⟨[1, 2]⟩) rfl

/-- C5: each per-verb constructor sets the `method` field to `Some` of
that verb, and `Endpoint::new()` leaves it `None`. -/
theorem verb_constructors_set_method :
    Endpoint.get.method = some .GET ∧
    Endpoint.post.method = some .POST ∧
    Endpoint.put.method = some .PUT ∧
    Endpoint.patch.method = some .PATCH ∧
    Endpoint.delete.method = some .DELETE ∧
    Endpoint.head.method = some .HEAD ∧
    Endpoint.new.method = none :=
  ⟨rfl, rfl, rfl, rfl, rfl, rfl, rfl⟩

/-- C6: `set_method` always overwrites any prior value — last write wins,
whatever the endpoint's prior configuration. -/
theorem set_method_last_write_wins (e : Endpoint) (m1 m2 : Method) :
    ((e.set_method m1).set_method m2).method = some m2 := rfl

/-- C7: `Endpoint::method(m)` is exactly `Endpoint::new().set_method(m)`,
so the two endpoints agree on the `method` field and on the handler. -/
theorem method_ctor_is_new_set_method (m : Method) :
    Endpoint.mkMethod m = Endpoint.new.set_method m := rfl

/-- C8: `set_method` replaces only the `method` field, keeping the handler;
`to` replaces only the `handler` field (with the freshly built
EndpointService-Extract-Handler chain), keeping the method. -/
theorem builder_calls_frame {T U : Type} (e : Endpoint) (m : Method)
    (fr : Request → Except (HyperError × Request) T) (tr : U → Response)
    (f : T → U) :
    (e.set_method m).handler = e.handler ∧
    (e.set_method m).method = some m ∧
    (e.to fr tr f).method = e.method ∧
    (e.to fr tr f).handler = EndpointService.toOuter
      (Extract.toService fr tr (Handler.new f)) :=
  ⟨rfl, rfl, rfl, rfl⟩

/-- C9: the fallback response produced on an inner failure is
`Response::new(Body::default())`, whose status is the default 200 OK —
at the status-code level a swallowed failure looks like a success. -/
theorem fallback_response_status_200 (s : InnerService) (req : Request)
    (e : HyperError) (r : Request) (h : s.call req = .error (e, r)) :
    EndpointService.call s req = .ok (Response.new Body.default) ∧
      (Response.new Body.default).status = 200 := by
  refine ⟨?_, rfl⟩
  simp [EndpointService.call, h]

/-- Witness for C9: the concrete failing service's fallback carries
status 200. -/
theorem fallback_response_status_200_witness :
    EndpointService.call failingService ⟨4⟩ = .ok (Response.new Body.default) ∧
      (Response.new Body.default).status = 200 :=
  fallback_response_status_200 failingService ⟨4⟩ ⟨7⟩ ⟨4⟩ rfl

/-- C10: `Endpoint::new()` is not a special case: for any endpoint whose
method filter is `None`, registering via `to` the zero-argument closure
returning the ready 404 empty-body response yields exactly
`Endpoint::new()` — the same Extract-Handler-EndpointService chain. -/
theorem new_equals_to_of_404_closure (e : Endpoint) (h : e.method = none) :
    Endpoint.new = e.to fromRequestUnit toResponseId
      (fun _ : Unit => (Response.builder.status 404).body Body.default) := by
  cases e with
  | mk m hdl =>
    simp only at h
    subst h
    rfl

/-- Witness for C10: starting from a method-`None` endpoint with a
different registered handler, `to` with the 404 closure reproduces
`Endpoint::new()`. -/
theorem new_equals_to_of_404_closure_witness :
    Endpoint.new = (Endpoint.new.to fromRequestUnit toResponseId
      (fun _ : Unit => Response.new ⟨[9]⟩)).to fromRequestUnit toResponseId
      (fun _ : Unit => (Response.builder.status 404).body Body.default) :=
  new_equals_to_of_404_closure
    (Endpoint.new.to fromRequestUnit toResponseId
      (fun _ : Unit => Response.new ⟨[9]⟩)) rfl
